import Mathlib

/-!
Verification development for the PyBrary repository: a personal book-catalog
application implemented twice (PySide6 in `PyBrary.py`, tkinter in
`Library RC1.py`) plus a demo-data script (`demo_generator.py`).

The embedding is shallow.  Python strings are Lean `String`s, operated on
through their `data : List Char` view so that everything kernel-evaluates;
Python string comparison is the code-point lexicographic order, which is the
`LinearOrder (List Char)` order.  Python `list.sort(key=...)` is a stable sort
by a total-preorder key; every stable sort agrees extensionally, so it is
embedded as `List.insertionSort`.  Each book record dictionary is a structure
whose fields follow the FIELDNAMES of its variant.  The CSV layer (stdlib
`csv.DictWriter` / `csv.DictReader`) is embedded at the level it is used:
a persisted file is the list of per-record associations from header field
names to cell strings, which is exactly what `DictWriter` writes and
`DictReader` hands back.  Network and image-library effects are parameters:
an HTTP response is a value describing its status, content type and whether
Pillow verification of the downloaded bytes succeeds, and the author-detail
sub-lookup is a function argument.

Namespaces: `PB` embeds `PyBrary.py`, `RC1` embeds the tkinter variant
(`src/unnamed/part_000`), `Demo` embeds `demo_generator.py`.
-/

/-- Row of a persisted CSV file as `csv.DictReader` presents it: the
association from header field names to cell values for one record. -/
abbrev Row : Type := List (String × String)

/-- Python `row.get(field)`: the value under `field`, if that key is present. -/
def pyGet (row : Row) (field : String) : Option String :=
  (row.find? (fun p => p.1 == field)).map (fun p => p.2)

/-- Python `row.get(field, dflt)`. -/
def pyGetD (row : Row) (field dflt : String) : String :=
  (pyGet row field).getD dflt

/-- Python `s.replace(c, "")` for a one-character pattern: every occurrence
of `c` is removed, scanning left to right. -/
def pyRemoveChar (c : Char) : List Char → List Char
  | [] => []
  | a :: rest => if a = c then pyRemoveChar c rest else a :: pyRemoveChar c rest

/-- Python `str.lower()`, character by character (ASCII range, which is all
the source ever compares). -/
def pyLower (s : String) : String := ⟨s.data.map Char.toLower⟩

/-- Python `str.strip()`: drop leading and trailing whitespace. -/
def pyStripL (p : Char → Bool) (l : List Char) : List Char :=
  ((l.dropWhile p).reverse.dropWhile p).reverse

/-- Python `str.strip()` on a string. -/
def pyStrip (s : String) : String := ⟨pyStripL Char.isWhitespace s.data⟩

/-- Python `sep.join(xs)`. -/
def pyJoin (sep : String) (xs : List String) : String := String.intercalate sep xs

/-- Python `p.startswith(q)` respectively `q in p` use these data-level
checks so that concrete instances evaluate in the kernel. -/
def pyStartsWith (q s : String) : Bool := q.data.isPrefixOf s.data

/-- Python substring test `q in s`, on the character lists. -/
def pyContainsL (qd : List Char) : List Char → Bool
  | [] => qd.isEmpty
  | c :: rest => qd.isPrefixOf (c :: rest) || pyContainsL qd rest

/-- Python substring test `q in s`. -/
def pyContains (q s : String) : Bool := pyContainsL q.data s.data

/-- Python truthiness of an optional integer (`if x:`): false for `None`
and for `0`. -/
def truthyInt : Option Int → Bool
  | none => false
  | some n => n != 0

namespace PB

/-- BookRecord of `PyBrary.py`: one dictionary of the global `collection`,
fields in FIELDNAMES order (line 236).  All values are strings, as produced
by `load_collection` and `fetch_and_add_book_action`. -/
structure Book where
  ISBN : String
  Title : String
  Author : String
  Publisher : String
  PublishedDate : String
  ImagePath : String
  DateAdded : String
  ReadStatus : String
deriving DecidableEq, Repr

/-- FIELDNAMES of `PyBrary.py` (lines 236-239). -/
def FIELDNAMES : List String :=
  ["ISBN", "Title", "Author", "Publisher", "PublishedDate",
   "ImagePath", "DateAdded", "ReadStatus"]

/-- Function `clean_isbn` (lines 301-311): remove hyphens and spaces. -/
def clean_isbn (isbn_string : String) : String :=
  ⟨pyRemoveChar ' ' (pyRemoveChar '-' isbn_string.data)⟩

/-- Sort key comparison of `_sort_collection` (line 319): the Python tuple
`(title.lower(), author.lower())` under tuple (lexicographic) order. -/
def sortLe (a b : Book) : Prop :=
  (pyLower a.Title).data < (pyLower b.Title).data ∨
    ((pyLower a.Title).data = (pyLower b.Title).data ∧
      (pyLower a.Author).data ≤ (pyLower b.Author).data)

instance : DecidableRel sortLe := fun a b => by
  unfold sortLe; infer_instance

instance : IsTrans Book sortLe := by
  constructor
  intro a b c hab hbc
  rcases hab with h1 | ⟨h1, h1'⟩ <;> rcases hbc with h2 | ⟨h2, h2'⟩
  · exact Or.inl (lt_trans h1 h2)
  · exact Or.inl (h2 ▸ h1)
  · exact Or.inl (h1 ▸ h2)
  · exact Or.inr ⟨h1.trans h2, le_trans h1' h2'⟩

instance : IsTotal Book sortLe := by
  constructor
  intro a b
  rcases lt_trichotomy (pyLower a.Title).data (pyLower b.Title).data with h | h | h
  · exact Or.inl (Or.inl h)
  · rcases le_total (pyLower a.Author).data (pyLower b.Author).data with h' | h'
    · exact Or.inl (Or.inr ⟨h, h'⟩)
    · exact Or.inr (Or.inr ⟨h.symm, h'⟩)
  · exact Or.inr (Or.inl h)

/-- Function `_sort_collection` (lines 313-319): Python stable sort of the
collection by the key above.  Stable sorts by one total preorder agree
extensionally, so insertion sort embeds `list.sort`. -/
def _sort_collection (col : List Book) : List Book :=
  List.insertionSort sortLe col

/-- Projection of a record to the cell values `csv.DictWriter.writerow`
emits, in FIELDNAMES order. -/
def bookToRow (b : Book) : Row :=
  FIELDNAMES.zip
    [b.ISBN, b.Title, b.Author, b.Publisher, b.PublishedDate,
     b.ImagePath, b.DateAdded, b.ReadStatus]

/-- Function `save_collection_to_file` (lines 321-341), successful path:
the persisted file holds one row per record, each associating the header
fields with the values of that record. -/
def save_collection_to_file (col : List Book) : List Row :=
  col.map bookToRow

/-- Row handling of `MainWindow.load_collection` (line 912): every
FIELDNAMES field is read with default `""`. -/
def rowToBook (row : Row) : Book :=
  { ISBN := pyGetD row "ISBN" ""
    Title := pyGetD row "Title" ""
    Author := pyGetD row "Author" ""
    Publisher := pyGetD row "Publisher" ""
    PublishedDate := pyGetD row "PublishedDate" ""
    ImagePath := pyGetD row "ImagePath" ""
    DateAdded := pyGetD row "DateAdded" ""
    ReadStatus := pyGetD row "ReadStatus" "" }

/-- Method `MainWindow.load_collection` (lines 882-926), reading path: every
row becomes a record (no row is skipped), then `_sort_collection` runs. -/
def load_collection (rows : List Row) : List Book :=
  _sort_collection (rows.map rowToBook)

/-- Author reference inside the OpenLibrary `/isbn/` JSON (`book_data["authors"]`
entries): a dictionary that may carry a `key`. -/
structure OLAuthorRef where
  key : Option String
deriving DecidableEq, Repr

/-- Parsed OpenLibrary `/isbn/{isbn}.json` body as `fetch_book_details_openlibrary`
reads it.  Optional fields are absent JSON keys; `covers` entries are the
integer cover ids (the only case the code inspects). -/
structure OLBookData where
  title : Option String
  authors : List OLAuthorRef
  publishers : List String
  publish_date : Option String
  covers : Option (List Int)
deriving DecidableEq, Repr

/-- Structured fetch result (the `details` dictionary built at lines 363-395). -/
structure Details where
  ISBN : String
  Title : String
  Author : String
  Publisher : String
  PublishedDate : String
  ImagePath : String
  cover_id : Option Int
deriving DecidableEq, Repr

/-- Name appended for one author reference (lines 368-379): a reference
without a `key` contributes a format-error marker; otherwise the author
sub-request runs, embedded as the oracle `resolve` which yields whatever
string the code would append (the fetched name, `"Unknown Author"` on a
missing name field, or `"Author fetch error"` on a request exception). -/
def authorName (resolve : String → String) (r : OLAuthorRef) : String :=
  match r.key with
  | none => "Author data format error"
  | some k => resolve k

/-- Cover-id extraction (lines 389-394). -/
def coverIdOf (covers : Option (List Int)) : Option Int :=
  match covers with
  | none => none
  | some l =>
    if l.isEmpty then none
    else
      match l.filter (fun cid => cid > 0) with
      | c :: _ => some c
      | [] =>
        match l with
        | c :: _ => if c != -1 then some c else none
        | [] => none

/-- Function `fetch_book_details_openlibrary` (lines 344-410), success path:
build the details dictionary from the parsed body.  The failure paths (HTTP
error, connection error, timeout, request error, JSON decode error) all
return `None` and are embedded in `fetchResult`. -/
def fetch_book_details_openlibrary (resolve : String → String) (isbn : String)
    (bd : OLBookData) : Details :=
  { ISBN := isbn
    Title := bd.title.getD "N/A"
    Author :=
      if bd.authors.isEmpty then "N/A"
      else pyJoin ", " ((bd.authors.take 2).map (authorName resolve))
    Publisher :=
      if bd.publishers.isEmpty then "N/A"
      else pyJoin ", " (bd.publishers.take 2)
    PublishedDate := bd.publish_date.getD "N/A"
    ImagePath := ""
    cover_id := coverIdOf bd.covers }

/-- Outcome of the whole metadata lookup: either a parsed body or one of the
five reported failures, every one of which makes the function return `None`. -/
def fetchResult (resolve : String → String) (isbn : String)
    (resp : Option OLBookData) : Option Details :=
  resp.map (fetch_book_details_openlibrary resolve isbn)

/-- Outcome of one HTTP image request plus the Pillow check on whatever bytes
it delivered: `ok` is false when `requests.get`/`raise_for_status` raises,
`contentType` is the declared content-type header, and `bodyValid` records
whether `Image.open(...).verify()` succeeds on the written file. -/
structure HttpImg where
  ok : Bool
  contentType : String
  bodyValid : Bool
deriving DecidableEq, Repr

/-- Function `download_cover_image` (lines 412-472).  `pre` is whether
`covers/<isbn>.jpg` existed before the call; the result is the returned
relative path together with whether that file exists afterwards.
The request-exception path removes the file; the content-type rejection
returns before writing; a file whose bytes fail Pillow verification is
deleted. -/
def download_cover_image (resp : HttpImg) (pre : Bool) (cover_id : Option Int)
    (isbn_for_filename : String) : String × Bool :=
  if truthyInt cover_id = false ∨ cover_id = some (-1) then ("", pre)
  else if resp.ok = false then ("", false)
  else if pyStartsWith "image/" (pyLower resp.contentType) = false then ("", pre)
  else if resp.bodyValid = false then ("", false)
  else ("covers/" ++ clean_isbn isbn_for_filename ++ ".jpg", true)

/-- Observable outcome of `MainWindow.fetch_and_add_book_action`. -/
inductive Outcome where
  | inputError
  | duplicate
  | fetchFailed
  | nameError
deriving DecidableEq, Repr

/-- Result of the add-book handler: the collection afterwards, how the
handler ended, whether `save_collection_to_file` was called, and whether the
cover file exists afterwards. -/
structure AddResult where
  collection : List Book
  outcome : Outcome
  saved : Bool
  coverFile : Bool
deriving DecidableEq, Repr

/-- Method `MainWindow.fetch_and_add_book_action` (lines 723-805).  After a
successful fetch (and the optional cover download) the handler builds the
confirmation text at lines 762-768, which reads the undefined name `details`
instead of `book_details`; Python raises `NameError` there, so the
confirmation dialog, the append, the sort and the save are unreachable and
the handler always aborts with the collection unchanged. -/
def fetch_and_add_book_action (col : List Book) (input : String)
    (resolve : String → String) (resp : Option OLBookData) (img : HttpImg)
    (pre : Bool) : AddResult :=
  let isbn := clean_isbn input
  if isbn = "" then ⟨col, .inputError, false, pre⟩
  else if col.any (fun b => b.ISBN == isbn) then ⟨col, .duplicate, false, pre⟩
  else
    match fetchResult resolve isbn resp with
    | none => ⟨col, .fetchFailed, false, pre⟩
    | some d =>
      let d1 := { d with ISBN := isbn }
      let dl :=
        if truthyInt d1.cover_id then download_cover_image img pre d1.cover_id isbn
        else ("", pre)
      ⟨col, .nameError, false, dl.2⟩

end PB

namespace RC1

/-- BookRecord of the tkinter variant: fields in its FIELDNAMES order
(line 36).  `load_collection_on_start` normalizes an empty image path to
`None`, so `ImagePath` is optional here. -/
structure Book where
  ISBN : String
  Title : String
  Author : String
  Publisher : String
  PublishedDate : String
  ImagePath : Option String
  ReadStatus : String
  DateAdded : String
deriving DecidableEq, Repr

/-- FIELDNAMES of the tkinter variant (line 36): `ReadStatus` precedes
`DateAdded`, unlike `PyBrary.py`. -/
def FIELDNAMES : List String :=
  ["ISBN", "Title", "Author", "Publisher", "PublishedDate",
   "ImagePath", "ReadStatus", "DateAdded"]

/-- Function `clean_isbn` (lines 119-121): remove hyphens and spaces, then
strip remaining boundary whitespace. -/
def clean_isbn (isbn : String) : String :=
  ⟨pyStripL Char.isWhitespace (pyRemoveChar ' ' (pyRemoveChar '-' isbn.data))⟩

/-- Sort key comparison of `_sort_collection` (lines 123-127): lowercase
title only. -/
def sortLe (a b : Book) : Prop :=
  (pyLower a.Title).data ≤ (pyLower b.Title).data

instance : DecidableRel sortLe := fun a b => by
  unfold sortLe; infer_instance

instance : IsTrans Book sortLe :=
  ⟨fun _ _ _ hab hbc => le_trans hab hbc⟩

instance : IsTotal Book sortLe :=
  ⟨fun a b => le_total (pyLower a.Title).data (pyLower b.Title).data⟩

/-- Function `_sort_collection` (lines 123-127), embedded like the PySide
variant as the stable sort by the key. -/
def _sort_collection (col : List Book) : List Book :=
  List.insertionSort sortLe col

/-- Row handling of `load_collection_on_start` (lines 147-164): a row whose
`ISBN` is absent or empty (falsy) is skipped; `ReadStatus` defaults to
`"No"`, the display fields default to `"N/A"`, and an absent or empty
`ImagePath` becomes `None`. -/
def rowToBook (row : Row) : Option Book :=
  match pyGet row "ISBN" with
  | none => none
  | some i =>
    if i = "" then none
    else
      some
        { ISBN := i
          Title := pyGetD row "Title" "N/A"
          Author := pyGetD row "Author" "N/A"
          Publisher := pyGetD row "Publisher" "N/A"
          PublishedDate := pyGetD row "PublishedDate" "N/A"
          ImagePath :=
            match pyGet row "ImagePath" with
            | none => none
            | some s => if s = "" then none else some s
          ReadStatus := pyGetD row "ReadStatus" "No"
          DateAdded := pyGetD row "DateAdded" "N/A" }

/-- Function `load_collection_on_start` (lines 130-183), reading path:
keep the surviving rows, then `_sort_collection`. -/
def load_collection_on_start (rows : List Row) : List Book :=
  _sort_collection (rows.filterMap rowToBook)

/-- Function `save_collection_to_file` (lines 185-205): sort the collection
in place, then rewrite the file with one association row per record.
The first component is the collection after the in-place sort (which
happens whether or not the write succeeds). -/
def save_collection_to_file (col : List Book) : List Book × List Row :=
  let sorted := _sort_collection col
  (sorted,
    sorted.map (fun b =>
      FIELDNAMES.zip
        [b.ISBN, b.Title, b.Author, b.Publisher, b.PublishedDate,
         b.ImagePath.getD "", b.ReadStatus, b.DateAdded]))

/-- Record update performed by `toggle_read_status` at line 352. -/
def setReadStatus (b : Book) (st : String) : Book :=
  { b with ReadStatus := st }

/-- Search loop of `toggle_read_status` (lines 347-368): walk the collection,
and at the first record whose ISBN matches, change its `ReadStatus` when the
new value differs (second component: whether `save_collection_to_file` was
called) and `break`. -/
def toggleLoop (isbn st : String) : List Book → List Book × Bool
  | [] => ([], false)
  | b :: rest =>
    if b.ISBN == isbn then
      if b.ReadStatus == st then (b :: rest, false)
      else (setReadStatus b st :: rest, true)
    else
      let r := toggleLoop isbn st rest
      (b :: r.1, r.2)

/-- Function `toggle_read_status` (lines 325-372) for a selected ISBN: the
collection afterwards (the save it triggers re-sorts in place) and whether a
save was performed. -/
def toggle_read_status (col : List Book) (isbn st : String) : List Book × Bool :=
  let r := toggleLoop isbn st col
  if r.2 then (_sort_collection r.1, true) else (r.1, false)

/-- Parsed entry of the `/api/books` response for the requested key
(`book_info_raw`, line 434).  Author and publisher entries are the optional
`name` members the code reads with default `"N/A"`; `coverMedium` is the
optional `cover.medium` URL; `covers` is the list of integer cover ids. -/
structure ApiBook where
  title : Option String
  authors : List (Option String)
  publishers : List (Option String)
  publish_date : Option String
  coverMedium : Option String
  covers : List Int
deriving DecidableEq, Repr

/-- Outcome of the `/api/books` request in `fetch_and_add_book`:
`ok none` is a 200 response whose body lacks the requested key (Not Found
branch, line 427). -/
inductive ApiResp where
  | httpError (code : Nat)
  | timeoutErr
  | requestErr
  | jsonErr
  | ok (found : Option ApiBook)
deriving DecidableEq, Repr

/-- Join of the author or publisher names (lines 438-439):
`", ".join(... or "N/A" for each entry)`, with a falsy (empty) join replaced
by `"N/A"`. -/
def joinNames (xs : List (Option String)) : String :=
  let j := pyJoin ", " (xs.map (fun o => o.getD "N/A"))
  if j = "" then "N/A" else j

/-- Cover URL selection (lines 457-465): prefer a truthy `cover.medium`
URL, otherwise build the medium-size URL from the first cover id when it is
positive. -/
def coverUrl (raw : ApiBook) : Option String :=
  let fromDict : Bool :=
    match raw.coverMedium with
    | some s => s != ""
    | none => false
  if fromDict then raw.coverMedium
  else
    match raw.covers with
    | [] => none
    | c :: _ =>
      if c > 0 then
        some ("https://covers.openlibrary.org/b/id/" ++ toString c ++ "-M.jpg")
      else none

/-- Environment of the inline cover download (lines 467-496) and of the save:
whether `ensure_covers_dir` succeeds, the image request outcome (`Except`
error is a `RequestException`; success carries the content-type header),
whether the delivered bytes would pass Pillow verification (`imgBodyValid` —
recorded here because this variant, unlike the other two downloaders, has no
validation step that ever consults it), whether writing the local file
raises `IOError`, the script directory used to build the stored absolute
path, and whether the collection file write succeeds. -/
structure Env where
  dirOk : Bool
  imgResp : Except Unit String
  imgBodyValid : Bool
  writeOk : Bool
  scriptDir : String
  saveWriteOk : Bool
deriving Repr

/-- Inline cover download of `fetch_and_add_book` (lines 467-496): the image
path stored in the record.  There is no Pillow validation in this variant —
after the bytes are written the path is stored unconditionally (lines
479-483), so the result never depends on `imgBodyValid`; the content-type
check is a substring test, and every request failure leaves `ImagePath` as
`None`. -/
def coverDownload (env : Env) (url : Option String) (cleanedIsbn : String) :
    Option String :=
  match url with
  | none => none
  | some _ =>
    if env.dirOk then
      match env.imgResp with
      | .error _ => none
      | .ok ct =>
        if pyContains "image" (pyLower ct) then
          if env.writeOk then
            some (env.scriptDir ++ "/covers/" ++ cleanedIsbn ++ ".jpg")
          else none
        else none
    else none

/-- State of the local file `covers/<isbn>.jpg` after the inline cover
download of `fetch_and_add_book` (lines 467-496), given whether it existed
before (`pre`).  A successful write leaves the file in place: this variant
contains no `os.remove` at all, so no path ever deletes the file, whatever
the delivered bytes are; paths that never reach the write (no URL, directory
failure, request exception raised before `open`, non-image content type, or
a write that raises `IOError`, modelled as leaving the prior state) leave
`pre`. -/
def coverFileAfter (env : Env) (url : Option String) (pre : Bool) : Bool :=
  match url with
  | none => pre
  | some _ =>
    if env.dirOk then
      match env.imgResp with
      | .error _ => pre
      | .ok ct =>
        if pyContains "image" (pyLower ct) then
          if env.writeOk then true else pre
        else pre
    else pre

/-- Observable outcome of `fetch_and_add_book`. -/
inductive Outcome where
  | inputRequired
  | duplicate
  | notFound
  | apiError
  | cancelled
  | added (fileWriteOk : Bool)
deriving DecidableEq, Repr

/-- Result of the add-book pipeline: the collection afterwards, the outcome,
and whether `save_collection_to_file` was called. -/
structure AddResult where
  collection : List Book
  outcome : Outcome
  saveCalled : Bool
deriving Repr

/-- Function `fetch_and_add_book` (lines 377-556).  `rawInput` is the entry
text (stripped at line 386), `api` the `/api/books` outcome, `confirm` the
answer of the confirmation dialog, `today` the value of
`date.today().isoformat()`.  The duplicate check compares the cleaned ISBN
against the stored ISBNs (treeview iids mirror the collection, with the
list fallback at lines 404-408). -/
def fetch_and_add_book (col : List Book) (rawInput : String) (api : ApiResp)
    (confirm : Bool) (today : String) (env : Env) : AddResult :=
  let isbn_input := pyStrip rawInput
  if isbn_input = "" then ⟨col, .inputRequired, false⟩
  else
    let cleaned := clean_isbn isbn_input
    if col.any (fun b => b.ISBN == cleaned) then ⟨col, .duplicate, false⟩
    else
      match api with
      | .ok none => ⟨col, .notFound, false⟩
      | .ok (some raw) =>
        let details : Book :=
          { ISBN := cleaned
            Title := raw.title.getD "N/A"
            Author := joinNames raw.authors
            Publisher := joinNames raw.publishers
            PublishedDate := raw.publish_date.getD "N/A"
            ImagePath := none
            ReadStatus := "No"
            DateAdded := today }
        if confirm then
          let withCover :=
            { details with
                ImagePath := coverDownload env (coverUrl raw) cleaned }
          ⟨(save_collection_to_file (col ++ [withCover])).1,
            .added env.saveWriteOk, true⟩
        else ⟨col, .cancelled, false⟩
      | .httpError _ => ⟨col, .apiError, false⟩
      | .timeoutErr => ⟨col, .apiError, false⟩
      | .requestErr => ⟨col, .apiError, false⟩
      | .jsonErr => ⟨col, .apiError, false⟩

end RC1

namespace Demo

/-- Author entry of the `/isbn/` JSON as `demo_generator.py` reads it
(lines 82-97): a dictionary that may carry a `key`; when it does not, the
code appends `str(author_ref)`, embedded as the `rawStr` rendering of the
entry. -/
structure AuthorRef where
  key : Option String
  rawStr : String
deriving DecidableEq, Repr

/-- Author display string of `fetch_book_details_openlibrary` in
`demo_generator.py` (lines 82-99): names of the first two author entries,
resolved through the author sub-request oracle, joined with `", "`;
`"N/A"` when there are no authors. -/
def authorsField (resolve : String → String) (refs : List AuthorRef) : String :=
  let names :=
    (refs.take 2).map (fun r =>
      match r.key with
      | some k => resolve k
      | none => r.rawStr)
  if names.isEmpty then "N/A" else pyJoin ", " names

/-- Publisher display string (line 101): first two publishers joined, `"N/A"`
for an absent or empty list. -/
def publisherField (publishers : List String) : String :=
  if publishers.isEmpty then "N/A" else pyJoin ", " (publishers.take 2)

/-- Function `download_cover_image` of `demo_generator.py` (lines 148-205):
try the large rendition, fall back to the medium one when the large response
is not an image, validate the written bytes with Pillow and delete the file
when they are corrupt.  `pre` is whether `covers/<isbn>.jpg` existed before;
the result is the returned path and whether the file exists afterwards. -/
def download_cover_image (respL respM : PB.HttpImg) (pre : Bool)
    (cover_id : Option Int) (isbn : String) : String × Bool :=
  if truthyInt cover_id = false ∨ cover_id = some (-1) then ("", pre)
  else if respL.ok = false then ("", false)
  else if pyStartsWith "image/" (pyLower respL.contentType) then
    if respL.bodyValid then ("covers/" ++ PB.clean_isbn isbn ++ ".jpg", true)
    else ("", false)
  else if respM.ok = false then ("", false)
  else if pyStartsWith "image/" (pyLower respM.contentType) then
    if respM.bodyValid then ("covers/" ++ PB.clean_isbn isbn ++ ".jpg", true)
    else ("", false)
  else ("", pre)

end Demo

/-- Scenario data for the Great Gatsby walkthrough of the spec: the parsed
`/api/books` entry the mocked lookup returns in the tkinter variant. -/
def gatsbyApiBook : RC1.ApiBook :=
  { title := some "The Great Gatsby"
    authors := [some "F. Scott Fitzgerald"]
    publishers := []
    publish_date := none
    coverMedium := none
    covers := [] }

/-- Benign environment: directories and writes succeed, the image request
returns an empty content type (never consulted when there is no cover). -/
def quietEnv : RC1.Env :=
  { dirOk := true, imgResp := Except.ok "", imgBodyValid := true,
    writeOk := true, scriptDir := "", saveWriteOk := true }

/-- Scenario data for the same walkthrough against `PyBrary.py`: the parsed
`/isbn/` body with one author reference and no cover ids. -/
def gatsbyOLBook : PB.OLBookData :=
  { title := some "The Great Gatsby"
    authors := [{ key := some "/authors/OL27349A" }]
    publishers := []
    publish_date := none
    covers := none }

/-- Persisted row whose `ReadStatus` column is missing. -/
def missingRSRow : Row :=
  [("ISBN", "111"), ("Title", "T"), ("Author", "A"), ("Publisher", "P"),
   ("PublishedDate", "2001"), ("ImagePath", ""), ("DateAdded", "2020-01-01")]

/-- Persisted row whose `ISBN` column is missing. -/
def noIsbnRow : Row := [("Title", "Ghost")]

/-- Concrete record used by witnesses exercising the tkinter collection. -/
def duneBook : RC1.Book :=
  ⟨"9780441013593", "Dune", "Frank Herbert", "Ace", "1965", none, "No", "2020-01-01"⟩

/-- Second concrete record for witnesses that need a non-matching neighbour. -/
def hobbitBook : RC1.Book :=
  ⟨"9780261102384", "The Hobbit", "J. R. R. Tolkien", "HarperCollins", "1937",
    none, "No", "2020-01-02"⟩

/-- Concrete record used by witnesses exercising the PySide collection. -/
def gatsbyPBBook : PB.Book :=
  ⟨"9780743273565", "The Great Gatsby", "F. Scott Fitzgerald", "Scribner",
    "1925", "", "2020-01-03", "No"⟩

/-- Parsed API entry that does carry a cover reference. -/
def coveredApiBook : RC1.ApiBook :=
  { title := some "X"
    authors := []
    publishers := []
    publish_date := none
    coverMedium := some "https://covers.openlibrary.org/x.jpg"
    covers := [] }

/-- Environment whose image request answers with a non-image content type. -/
def htmlEnv : RC1.Env :=
  { dirOk := true, imgResp := Except.ok "text/html", imgBodyValid := true,
    writeOk := true, scriptDir := "", saveWriteOk := true }

/-- Environment whose image request raises (for instance a 404 turned into
an `HTTPError` by `raise_for_status`). -/
def errorImgEnv : RC1.Env :=
  { dirOk := true, imgResp := Except.error (), imgBodyValid := true,
    writeOk := true, scriptDir := "", saveWriteOk := true }

/-- Environment whose image request succeeds with an image content type but
delivers bytes that would fail Pillow verification. -/
def corruptImgEnv : RC1.Env :=
  { dirOk := true, imgResp := Except.ok "image/jpeg", imgBodyValid := false,
    writeOk := true, scriptDir := "", saveWriteOk := true }

theorem pyRemoveChar_eq_filter (c : Char) (l : List Char) :
    pyRemoveChar c l = l.filter (fun a => a != c) := by
  induction l with
  | nil => rfl
  | cons a t ih =>
    by_cases h : a = c <;> simp [pyRemoveChar, h, ih]

theorem filter_of_forall {α : Type} {p : α → Bool} {l : List α}
    (h : ∀ a ∈ l, p a = true) : l.filter p = l :=
  List.filter_eq_self.mpr h

theorem dropWhile_dropWhile {α : Type} (p : α → Bool) (l : List α) :
    (l.dropWhile p).dropWhile p = l.dropWhile p := by
  induction l with
  | nil => rfl
  | cons a t ih =>
    by_cases h : p a
    · simp [List.dropWhile_cons, h, ih]
    · simp [List.dropWhile_cons, h]

theorem dropWhile_head?_false {α : Type} (p : α → Bool) (l : List α) {a : α}
    (h : (l.dropWhile p).head? = some a) : p a = false := by
  induction l with
  | nil => simp at h
  | cons x t ih =>
    rw [List.dropWhile_cons] at h
    by_cases hx : p x
    · rw [if_pos hx] at h
      exact ih h
    · rw [if_neg hx] at h
      simp only [List.head?_cons, Option.some.injEq] at h
      subst h
      exact Bool.of_not_eq_true hx

theorem getLast?_dropWhile {α : Type} (p : α → Bool) (l : List α)
    (h : l.dropWhile p ≠ []) : (l.dropWhile p).getLast? = l.getLast? := by
  induction l with
  | nil => simp at h
  | cons x t ih =>
    rw [List.dropWhile_cons] at h ⊢
    by_cases hx : p x
    · rw [if_pos hx] at h ⊢
      have ht : t.dropWhile p ≠ [] := h
      have htne : t ≠ [] := by
        intro he
        rw [he] at ht
        exact ht rfl
      rw [ih ht]
      cases t with
      | nil => exact absurd rfl htne
      | cons y ys => rw [List.getLast?_cons_cons]
    · rw [if_neg hx]

theorem dropWhile_eq_self_of_head {α : Type} (p : α → Bool) (l : List α)
    (h : ∀ a, l.head? = some a → p a = false) : l.dropWhile p = l := by
  cases l with
  | nil => rfl
  | cons a t =>
    rw [List.dropWhile_cons, if_neg]
    intro hp
    have := h a rfl
    rw [hp] at this
    exact Bool.true_eq_false.mp this

theorem pyStripL_idem (p : Char → Bool) (l : List Char) :
    pyStripL p (pyStripL p l) = pyStripL p l := by
  unfold pyStripL
  by_cases hB : (l.dropWhile p).reverse.dropWhile p = []
  · rw [hB]
    simp
  · have hstep1 :
        ((l.dropWhile p).reverse.dropWhile p).reverse.dropWhile p
          = ((l.dropWhile p).reverse.dropWhile p).reverse := by
      apply dropWhile_eq_self_of_head
      intro a ha
      rw [List.head?_reverse] at ha
      rw [getLast?_dropWhile _ _ hB, List.getLast?_reverse] at ha
      exact dropWhile_head?_false p l ha
    rw [hstep1, List.reverse_reverse, dropWhile_dropWhile]

theorem mem_pyStripL {p : Char → Bool} {l : List Char} {x : Char}
    (hx : x ∈ pyStripL p l) : x ∈ l := by
  unfold pyStripL at hx
  rw [List.mem_reverse] at hx
  have h1 := List.Sublist.mem hx (List.dropWhile_sublist p)
  rw [List.mem_reverse] at h1
  exact List.Sublist.mem h1 (List.dropWhile_sublist p)

/-- Claim C8, as stated, is false of the code: the normalizers remove only
hyphens and space characters, so interior non-space whitespace such as a tab
survives in both variants, even though the claim promises that all interior
and boundary whitespace is removed. -/
theorem clean_isbn_keeps_tab :
    PB.clean_isbn "97\t8" = "97\t8"
    ∧ (PB.clean_isbn "97\t8").data.any (fun c => c.isWhitespace) = true
    ∧ RC1.clean_isbn "9\t7" = "9\t7"
    ∧ (RC1.clean_isbn "9\t7").data.any (fun c => c.isWhitespace) = true := by
  refine ⟨by decide, by decide, by decide, by decide⟩

/-- Claim C8, amended: the normalizer removes every hyphen and every space
character U+0020 (the tkinter variant additionally strips remaining leading
and trailing whitespace); it is total and idempotent in both variants, and
both spec examples normalize to `"9780134685991"`. -/
theorem clean_isbn_spec (s : String) :
    (PB.clean_isbn s).data = s.data.filter (fun a => a != ' ' && a != '-')
    ∧ PB.clean_isbn (PB.clean_isbn s) = PB.clean_isbn s
    ∧ RC1.clean_isbn (RC1.clean_isbn s) = RC1.clean_isbn s
    ∧ PB.clean_isbn "978-0-13-468599-1" = "9780134685991"
    ∧ PB.clean_isbn " 9780134685991 " = "9780134685991"
    ∧ RC1.clean_isbn "978-0-13-468599-1" = "9780134685991"
    ∧ RC1.clean_isbn " 9780134685991 " = "9780134685991" := by
  have hchar : ∀ (t : List Char),
      pyRemoveChar ' ' (pyRemoveChar '-' t)
        = t.filter (fun a => a != ' ' && a != '-') := by
    intro t
    rw [pyRemoveChar_eq_filter, pyRemoveChar_eq_filter, List.filter_filter]
  have hnone : ∀ (t : List Char) (x : Char),
      x ∈ t.filter (fun a => a != ' ' && a != '-') →
        (x != ' ' && x != '-') = true := by
    intro t x hx
    exact (List.mem_filter.mp hx).2
  refine ⟨by rw [PB.clean_isbn, hchar], ?_, ?_, by decide, by decide, by decide, by decide⟩
  · apply String.ext
    show pyRemoveChar ' ' (pyRemoveChar '-' (PB.clean_isbn s).data)
      = (PB.clean_isbn s).data
    rw [hchar]
    apply filter_of_forall
    intro a ha
    have : (PB.clean_isbn s).data = s.data.filter (fun a => a != ' ' && a != '-') := by
      rw [PB.clean_isbn, hchar]
    rw [this] at ha
    exact hnone _ _ ha
  · apply String.ext
    show pyStripL Char.isWhitespace
        (pyRemoveChar ' ' (pyRemoveChar '-' (RC1.clean_isbn s).data))
      = (RC1.clean_isbn s).data
    have hdata : (RC1.clean_isbn s).data
        = pyStripL Char.isWhitespace
            (s.data.filter (fun a => a != ' ' && a != '-')) := by
      rw [RC1.clean_isbn, hchar]
    rw [hdata, hchar, filter_of_forall, pyStripL_idem]
    intro a ha
    exact hnone _ _ (mem_pyStripL ha)

/-- Claim C1.  The tkinter pipeline behaves exactly as the scenario says:
adding ISBN 9780743273565 to an empty collection with the mocked lookup
(title The Great Gatsby, author F. Scott Fitzgerald, no cover id) and a
confirming user yields one stored record with `ImagePath` absent,
`ReadStatus` `"No"` and `DateAdded` equal to the supplied current date.
The PySide handler `fetch_and_add_book_action`, however, aborts on the very
same input with the embedded `NameError` (lines 762-768 read the undefined
name `details` instead of `book_details`), leaving the collection empty, so
the operation never completes successfully there. -/
theorem add_gatsby_scenario (today : String) :
    RC1.fetch_and_add_book [] "9780743273565"
        (RC1.ApiResp.ok (some gatsbyApiBook)) true today quietEnv
      = ⟨[⟨"9780743273565", "The Great Gatsby", "F. Scott Fitzgerald",
            "N/A", "N/A", none, "No", today⟩],
          RC1.Outcome.added true, true⟩
    ∧ PB.fetch_and_add_book_action [] "9780743273565"
        (fun _ => "F. Scott Fitzgerald") (some gatsbyOLBook)
        ⟨true, "image/jpeg", true⟩ false
      = ⟨[], PB.Outcome.nameError, false, false⟩ :=
  ⟨rfl, rfl⟩

/-- Claim C2.  In both variants, attempting to add a book whose cleaned ISBN
already occurs in the collection stops at the duplicate check: the outcome
is the duplicate condition, no save is performed, and the collection is
returned unchanged. -/
theorem duplicate_insert_rejected :
    (∀ (col : List RC1.Book) (raw : String) (api : RC1.ApiResp)
        (confirm : Bool) (today : String) (env : RC1.Env),
      pyStrip raw ≠ "" →
      col.any (fun b => b.ISBN == RC1.clean_isbn (pyStrip raw)) = true →
      RC1.fetch_and_add_book col raw api confirm today env
        = ⟨col, RC1.Outcome.duplicate, false⟩)
    ∧ (∀ (col : List PB.Book) (input : String) (resolve : String → String)
        (resp : Option PB.OLBookData) (img : PB.HttpImg) (pre : Bool),
      PB.clean_isbn input ≠ "" →
      col.any (fun b => b.ISBN == PB.clean_isbn input) = true →
      PB.fetch_and_add_book_action col input resolve resp img pre
        = ⟨col, PB.Outcome.duplicate, false, pre⟩) := by
  constructor
  · intro col raw api confirm today env h1 h2
    unfold RC1.fetch_and_add_book
    rw [if_neg h1, if_pos h2]
  · intro col input resolve resp img pre h1 h2
    unfold PB.fetch_and_add_book_action
    rw [if_neg h1, if_pos h2]

theorem duplicate_insert_rejected_witness :
    RC1.fetch_and_add_book [duneBook] "978-0-441-01359-3"
        (RC1.ApiResp.ok none) true "2024-01-01" quietEnv
      = ⟨[duneBook], RC1.Outcome.duplicate, false⟩
    ∧ PB.fetch_and_add_book_action [gatsbyPBBook] "9780743273565"
        (fun _ => "") none ⟨true, "", true⟩ true
      = ⟨[gatsbyPBBook], PB.Outcome.duplicate, false, true⟩ :=
  ⟨duplicate_insert_rejected.1 [duneBook] "978-0-441-01359-3"
      (RC1.ApiResp.ok none) true "2024-01-01" quietEnv (by decide) (by decide),
    duplicate_insert_rejected.2 [gatsbyPBBook] "9780743273565"
      (fun _ => "") none ⟨true, "", true⟩ true (by decide) (by decide)⟩

theorem rowToBook_bookToRow (b : PB.Book) : PB.rowToBook (PB.bookToRow b) = b :=
  rfl

/-- Claim C3.  Persisting a collection with `save_collection_to_file` and
loading it back with `load_collection` yields a permutation of (hence the
same set of records as) the original, for collections of any size. -/
theorem save_load_round_trip (col : List PB.Book) :
    (PB.load_collection (PB.save_collection_to_file col)).Perm col
    ∧ ∀ b : PB.Book,
        b ∈ PB.load_collection (PB.save_collection_to_file col) ↔ b ∈ col := by
  have h : PB.load_collection (PB.save_collection_to_file col)
      = PB._sort_collection col := by
    unfold PB.load_collection PB.save_collection_to_file
    rw [List.map_map]
    have hfun : (PB.rowToBook ∘ PB.bookToRow) = id :=
      funext (fun b => rowToBook_bookToRow b)
    rw [hfun, List.map_id]
  rw [h]
  have hperm : (PB._sort_collection col).Perm col :=
    List.perm_insertionSort PB.sortLe col
  exact ⟨hperm, fun b => hperm.mem_iff⟩

/-- Claim C4, as stated, is false of the PySide loader
`MainWindow.load_collection` (a cited load operation): a row whose
`ReadStatus` column is missing loads with `ReadStatus = ""` rather than
`"No"`, and a row whose `ISBN` column is missing is kept, not skipped. -/
theorem pb_load_defaults_counterexample :
    pyGet missingRSRow "ReadStatus" = none
    ∧ (PB.rowToBook missingRSRow).ReadStatus = ""
    ∧ ¬ (PB.rowToBook missingRSRow).ReadStatus = "No"
    ∧ pyGet noIsbnRow "ISBN" = none
    ∧ (PB.load_collection [noIsbnRow]).length = 1 := by
  refine ⟨by decide, by decide, by decide, by decide, by decide⟩

/-- Claim C4, amended: the stated defaulting and skipping hold of the
tkinter loader `load_collection_on_start` — a row lacking the `ReadStatus`
column loads with `ReadStatus = "No"`, and a row lacking the `ISBN` column
is dropped and leaves the loaded collection as if the row were not there;
the PySide loader instead defaults every missing field to the empty string
and keeps rows without an ISBN. -/
theorem rc1_load_defaults :
    (∀ (row : Row) (i : String),
      pyGet row "ISBN" = some i → i ≠ "" → pyGet row "ReadStatus" = none →
      ∃ b, RC1.rowToBook row = some b ∧ b.ReadStatus = "No")
    ∧ (∀ (row : Row) (pre post : List Row),
      pyGet row "ISBN" = none →
      RC1.rowToBook row = none
      ∧ RC1.load_collection_on_start (pre ++ row :: post)
          = RC1.load_collection_on_start (pre ++ post)) := by
  constructor
  · intro row i h1 h2 h3
    unfold RC1.rowToBook
    rw [h1]
    simp only [if_neg h2]
    refine ⟨_, rfl, ?_⟩
    show pyGetD row "ReadStatus" "No" = "No"
    rw [pyGetD, h3]
    rfl
  · intro row pre post h
    have hnone : RC1.rowToBook row = none := by
      unfold RC1.rowToBook
      rw [h]
    refine ⟨hnone, ?_⟩
    unfold RC1.load_collection_on_start
    rw [List.filterMap_append, List.filterMap_append, List.filterMap_cons, hnone]

theorem rc1_load_defaults_witness :
    (∃ b, RC1.rowToBook missingRSRow = some b ∧ b.ReadStatus = "No")
    ∧ (RC1.rowToBook noIsbnRow = none
       ∧ RC1.load_collection_on_start ([] ++ noIsbnRow :: [missingRSRow])
           = RC1.load_collection_on_start ([] ++ [missingRSRow])) :=
  ⟨rc1_load_defaults.1 missingRSRow "111" (by decide) (by decide) (by decide),
    rc1_load_defaults.2 noIsbnRow [] [missingRSRow] (by decide)⟩

theorem chain_title_of_pb_sort (col : List PB.Book) :
    List.Chain'
      (fun a b : PB.Book => (pyLower a.Title).data ≤ (pyLower b.Title).data)
      (PB._sort_collection col) := by
  have hs : List.Pairwise PB.sortLe (PB._sort_collection col) :=
    List.sorted_insertionSort PB.sortLe col
  refine List.Pairwise.chain' (hs.imp ?_)
  intro a b hab
  rcases hab with h | ⟨h, _⟩
  · exact le_of_lt h
  · exact le_of_eq h

theorem chain_title_of_rc1_sort (col : List RC1.Book) :
    List.Chain'
      (fun a b : RC1.Book => (pyLower a.Title).data ≤ (pyLower b.Title).data)
      (RC1._sort_collection col) :=
  List.Pairwise.chain' (List.sorted_insertionSort RC1.sortLe col)

theorem rc1_add_success_eq (col : List RC1.Book) (raw : String)
    (raw' : RC1.ApiBook) (today : String) (env : RC1.Env)
    (h1 : pyStrip raw ≠ "")
    (h2 : ¬ col.any (fun b => b.ISBN == RC1.clean_isbn (pyStrip raw)) = true) :
    RC1.fetch_and_add_book col raw (RC1.ApiResp.ok (some raw')) true today env
      = ⟨RC1._sort_collection (col ++
          [{ ISBN := RC1.clean_isbn (pyStrip raw)
             Title := raw'.title.getD "N/A"
             Author := RC1.joinNames raw'.authors
             Publisher := RC1.joinNames raw'.publishers
             PublishedDate := raw'.publish_date.getD "N/A"
             ImagePath :=
               RC1.coverDownload env (RC1.coverUrl raw')
                 (RC1.clean_isbn (pyStrip raw))
             ReadStatus := "No"
             DateAdded := today }]),
          RC1.Outcome.added env.saveWriteOk, true⟩ := by
  unfold RC1.fetch_and_add_book
  rw [if_neg h1, if_neg h2]
  rfl

/-- Claim C5.  Both loaders end by sorting, so the loaded collection is
non-decreasing in lowercase title for all adjacent pairs; and whenever the
tkinter add-book pipeline reports a completed insert, the collection it
leaves behind satisfies the same adjacent-pair invariant (its save step
sorts in place before writing). -/
theorem collection_sorted_after_load_and_insert :
    (∀ rows : List Row,
      List.Chain'
        (fun a b : PB.Book => (pyLower a.Title).data ≤ (pyLower b.Title).data)
        (PB.load_collection rows))
    ∧ (∀ rows : List Row,
      List.Chain'
        (fun a b : RC1.Book => (pyLower a.Title).data ≤ (pyLower b.Title).data)
        (RC1.load_collection_on_start rows))
    ∧ (∀ (col : List RC1.Book) (raw : String) (api : RC1.ApiResp)
        (confirm : Bool) (today : String) (env : RC1.Env) (s : Bool),
      (RC1.fetch_and_add_book col raw api confirm today env).outcome
          = RC1.Outcome.added s →
      List.Chain'
        (fun a b : RC1.Book => (pyLower a.Title).data ≤ (pyLower b.Title).data)
        (RC1.fetch_and_add_book col raw api confirm today env).collection) := by
  refine ⟨fun rows => chain_title_of_pb_sort _,
    fun rows => chain_title_of_rc1_sort _, ?_⟩
  intro col raw api confirm today env s h
  by_cases h1 : pyStrip raw = ""
  · exfalso
    unfold RC1.fetch_and_add_book at h
    rw [if_pos h1] at h
    simp at h
  · by_cases h2 : (col.any fun b => b.ISBN == RC1.clean_isbn (pyStrip raw)) = true
    · exfalso
      unfold RC1.fetch_and_add_book at h
      rw [if_neg h1, if_pos h2] at h
      simp at h
    · cases api with
      | httpError c =>
        exfalso
        unfold RC1.fetch_and_add_book at h
        rw [if_neg h1, if_neg h2] at h
        simp at h
      | timeoutErr =>
        exfalso
        unfold RC1.fetch_and_add_book at h
        rw [if_neg h1, if_neg h2] at h
        simp at h
      | requestErr =>
        exfalso
        unfold RC1.fetch_and_add_book at h
        rw [if_neg h1, if_neg h2] at h
        simp at h
      | jsonErr =>
        exfalso
        unfold RC1.fetch_and_add_book at h
        rw [if_neg h1, if_neg h2] at h
        simp at h
      | ok found =>
        cases found with
        | none =>
          exfalso
          unfold RC1.fetch_and_add_book at h
          rw [if_neg h1, if_neg h2] at h
          simp at h
        | some raw' =>
          cases confirm with
          | false =>
            exfalso
            unfold RC1.fetch_and_add_book at h
            rw [if_neg h1, if_neg h2] at h
            simp at h
          | true =>
            rw [rc1_add_success_eq col raw raw' today env h1 h2]
            exact chain_title_of_rc1_sort _

theorem toggleLoop_append (isbn st : String) (pre l : List RC1.Book)
    (hpre : ∀ x ∈ pre, x.ISBN ≠ isbn) :
    RC1.toggleLoop isbn st (pre ++ l)
      = (pre ++ (RC1.toggleLoop isbn st l).1, (RC1.toggleLoop isbn st l).2) := by
  induction pre with
  | nil => simp
  | cons x t ih =>
    have hx : (x.ISBN == isbn) = false := by
      have hne := hpre x (List.mem_cons_self x t)
      exact beq_eq_false_iff_ne.mpr hne
    have ht := ih (fun y hy => hpre y (List.mem_cons_of_mem x hy))
    simp [RC1.toggleLoop, hx, ht]

/-- Claim C9.  For the first record whose ISBN matches the selection:
with an unchanged status the toggle performs no save and leaves the
collection identical; with a changed status it replaces exactly that record
by the same record with only `ReadStatus` rewritten (every other field,
including `DateAdded`, is untouched), calls the save (which re-sorts, a
permutation preserving the record contents), and leaves every other record
unchanged. -/
theorem toggle_read_status_frame (pre post : List RC1.Book) (b : RC1.Book)
    (st : String) (hpre : ∀ x ∈ pre, x.ISBN ≠ b.ISBN) :
    (b.ReadStatus = st →
      RC1.toggle_read_status (pre ++ b :: post) b.ISBN st
        = (pre ++ b :: post, false))
    ∧ (b.ReadStatus ≠ st →
      RC1.toggle_read_status (pre ++ b :: post) b.ISBN st
        = (RC1._sort_collection (pre ++ RC1.setReadStatus b st :: post), true)
      ∧ (RC1._sort_collection (pre ++ RC1.setReadStatus b st :: post)).Perm
          (pre ++ RC1.setReadStatus b st :: post)
      ∧ (RC1.setReadStatus b st).ISBN = b.ISBN
      ∧ (RC1.setReadStatus b st).Title = b.Title
      ∧ (RC1.setReadStatus b st).Author = b.Author
      ∧ (RC1.setReadStatus b st).Publisher = b.Publisher
      ∧ (RC1.setReadStatus b st).PublishedDate = b.PublishedDate
      ∧ (RC1.setReadStatus b st).ImagePath = b.ImagePath
      ∧ (RC1.setReadStatus b st).DateAdded = b.DateAdded
      ∧ (RC1.setReadStatus b st).ReadStatus = st) := by
  have hloop := toggleLoop_append b.ISBN st pre (b :: post) hpre
  have hb : (b.ISBN == b.ISBN) = true := beq_self_eq_true b.ISBN
  constructor
  · intro heq
    have hst : (b.ReadStatus == st) = true := by
      rw [heq]
      exact beq_self_eq_true st
    have h2 : RC1.toggleLoop b.ISBN st (b :: post) = (b :: post, false) := by
      simp [RC1.toggleLoop, hb, hst]
    simp [RC1.toggle_read_status, hloop, h2]
  · intro hne
    have hst : (b.ReadStatus == st) = false := beq_eq_false_iff_ne.mpr hne
    have h2 : RC1.toggleLoop b.ISBN st (b :: post)
        = (RC1.setReadStatus b st :: post, true) := by
      simp [RC1.toggleLoop, hb, hst]
    refine ⟨?_, List.perm_insertionSort _ _, rfl, rfl, rfl, rfl, rfl, rfl, rfl, rfl⟩
    simp [RC1.toggle_read_status, hloop, h2]

theorem toggle_read_status_frame_witness :
    RC1.toggle_read_status ([hobbitBook] ++ duneBook :: []) duneBook.ISBN "No"
      = ([hobbitBook] ++ duneBook :: [], false)
    ∧ RC1.toggle_read_status ([hobbitBook] ++ duneBook :: []) duneBook.ISBN "Yes"
      = (RC1._sort_collection ([hobbitBook] ++ RC1.setReadStatus duneBook "Yes" :: []),
          true) :=
  ⟨(toggle_read_status_frame [hobbitBook] [] duneBook "No" (by decide)).1 (by decide),
    ((toggle_read_status_frame [hobbitBook] [] duneBook "Yes" (by decide)).2
      (by decide)).1⟩

theorem coverDownload_none_of_error (env : RC1.Env) (u : Option String)
    (x : String) (h : env.imgResp = Except.error ()) :
    RC1.coverDownload env u x = none := by
  cases u with
  | none => rfl
  | some s =>
    unfold RC1.coverDownload
    rw [h]
    by_cases hd : env.dirOk = true <;> simp [hd]

/-- Claim C6, as stated, is false of the cited tkinter inline download
(lines 467-501): that retrieval performs no structural validation after
writing.  At this concrete input the request succeeds with an image content
type but delivers bytes that would fail Pillow verification; the file is
nevertheless kept on disk, the retrieval stores its path rather than an
empty one, and the completed record carries that path — the invalid file is
neither deleted nor treated as no image. -/
theorem rc1_download_stores_corrupt_file :
    corruptImgEnv.imgBodyValid = false
    ∧ RC1.coverDownload corruptImgEnv (RC1.coverUrl coveredApiBook)
        (RC1.clean_isbn (pyStrip "12")) = some "/covers/12.jpg"
    ∧ RC1.coverFileAfter corruptImgEnv (RC1.coverUrl coveredApiBook) false = true
    ∧ RC1.fetch_and_add_book [] "12" (RC1.ApiResp.ok (some coveredApiBook))
        true "2024-01-01" corruptImgEnv
      = ⟨[⟨"12", "X", "N/A", "N/A", "N/A", some "/covers/12.jpg", "No",
            "2024-01-01"⟩], RC1.Outcome.added true, true⟩ := by
  refine ⟨rfl, by decide, by decide, rfl⟩

/-- Claim C6, amended: in the two downloaders that validate (PyBrary.py and
demo_generator.py) a written file whose bytes fail the Pillow check is
deleted and the retrieval returns the empty path; when the cover retrieval
yields no image the tkinter add-book pipeline still completes the insert,
storing the record with `ImagePath` absent; the tkinter inline download
itself performs no validation — its stored path and the resulting file
state are independent of whether the delivered bytes would pass
verification, so a corrupt downloaded file is kept with its path stored. -/
theorem invalid_cover_degrades :
    (∀ (img : PB.HttpImg) (pre : Bool) (cid : Int) (isbn : String),
      cid ≠ 0 → cid ≠ -1 → img.ok = true →
      pyStartsWith "image/" (pyLower img.contentType) = true →
      img.bodyValid = false →
      PB.download_cover_image img pre (some cid) isbn = ("", false))
    ∧ (∀ (respL respM : PB.HttpImg) (pre : Bool) (cid : Int) (isbn : String),
      cid ≠ 0 → cid ≠ -1 → respL.ok = true →
      pyStartsWith "image/" (pyLower respL.contentType) = true →
      respL.bodyValid = false →
      Demo.download_cover_image respL respM pre (some cid) isbn = ("", false))
    ∧ (∀ (col : List RC1.Book) (raw : String) (raw' : RC1.ApiBook)
        (today : String) (env : RC1.Env),
      pyStrip raw ≠ "" →
      ¬ col.any (fun b => b.ISBN == RC1.clean_isbn (pyStrip raw)) = true →
      RC1.coverDownload env (RC1.coverUrl raw') (RC1.clean_isbn (pyStrip raw)) = none →
      RC1.fetch_and_add_book col raw (RC1.ApiResp.ok (some raw')) true today env
        = ⟨RC1._sort_collection (col ++
            [{ ISBN := RC1.clean_isbn (pyStrip raw)
               Title := raw'.title.getD "N/A"
               Author := RC1.joinNames raw'.authors
               Publisher := RC1.joinNames raw'.publishers
               PublishedDate := raw'.publish_date.getD "N/A"
               ImagePath := none
               ReadStatus := "No"
               DateAdded := today }]),
            RC1.Outcome.added env.saveWriteOk, true⟩)
    ∧ (∀ (env : RC1.Env) (u : Option String) (x : String) (pre v : Bool),
      RC1.coverDownload { env with imgBodyValid := v } u x
        = RC1.coverDownload env u x
      ∧ RC1.coverFileAfter { env with imgBodyValid := v } u pre
        = RC1.coverFileAfter env u pre) := by
  refine ⟨?_, ?_, ?_, ?_⟩
  · intro img pre cid isbn h0 h1 hok hct hbv
    have hc1 : ¬ (truthyInt (some cid) = false ∨ some cid = some (-1)) := by
      rintro (hc | hc)
      · simp [truthyInt] at hc
        exact h0 hc
      · exact h1 (Option.some.injEq cid (-1) ▸ hc)
    unfold PB.download_cover_image
    rw [if_neg hc1, if_neg (by simp [hok]), if_neg (by simp [hct]), if_pos hbv]
  · intro respL respM pre cid isbn h0 h1 hok hct hbv
    have hc1 : ¬ (truthyInt (some cid) = false ∨ some cid = some (-1)) := by
      rintro (hc | hc)
      · simp [truthyInt] at hc
        exact h0 hc
      · exact h1 (Option.some.injEq cid (-1) ▸ hc)
    unfold Demo.download_cover_image
    rw [if_neg hc1, if_neg (by simp [hok]), if_pos hct, if_neg (by simp [hbv])]
  · intro col raw raw' today env h1 h2 hcover
    rw [rc1_add_success_eq col raw raw' today env h1 h2, hcover]
  · intro env u x pre v
    cases u with
    | none => exact ⟨rfl, rfl⟩
    | some s => exact ⟨rfl, rfl⟩

theorem invalid_cover_degrades_witness :
    PB.download_cover_image ⟨true, "image/jpeg", false⟩ true (some 5) "1"
      = ("", false)
    ∧ Demo.download_cover_image ⟨true, "image/jpeg", false⟩ ⟨true, "", true⟩
        true (some 5) "1" = ("", false)
    ∧ RC1.fetch_and_add_book [] "12" (RC1.ApiResp.ok (some coveredApiBook))
        true "2024-01-01" htmlEnv
      = ⟨RC1._sort_collection ([] ++
          [{ ISBN := RC1.clean_isbn (pyStrip "12")
             Title := coveredApiBook.title.getD "N/A"
             Author := RC1.joinNames coveredApiBook.authors
             Publisher := RC1.joinNames coveredApiBook.publishers
             PublishedDate := coveredApiBook.publish_date.getD "N/A"
             ImagePath := none
             ReadStatus := "No"
             DateAdded := "2024-01-01" }]),
          RC1.Outcome.added true, true⟩ :=
  ⟨invalid_cover_degrades.1 ⟨true, "image/jpeg", false⟩ true 5 "1"
      (by decide) (by decide) (by decide) (by decide) (by decide),
    invalid_cover_degrades.2.1 ⟨true, "image/jpeg", false⟩ ⟨true, "", true⟩
      true 5 "1" (by decide) (by decide) (by decide) (by decide) (by decide),
    invalid_cover_degrades.2.2.1 [] "12" coveredApiBook "2024-01-01" htmlEnv
      (by decide) (by decide) (by decide)⟩

/-- Claim C7.  A cover request that fails outright (for instance a 404,
which `raise_for_status` turns into a caught `RequestException`) makes both
validating downloaders return the empty path with no file left behind and
no exception escaping (the embedded functions are total); and the tkinter
add-book pipeline under a failing image request still completes the insert
with the record storing no image path. -/
theorem cover_request_failure_degrades :
    (∀ (img : PB.HttpImg) (pre : Bool) (cid : Int) (isbn : String),
      cid ≠ 0 → cid ≠ -1 → img.ok = false →
      PB.download_cover_image img pre (some cid) isbn = ("", false))
    ∧ (∀ (respL respM : PB.HttpImg) (pre : Bool) (cid : Int) (isbn : String),
      cid ≠ 0 → cid ≠ -1 → respL.ok = false →
      Demo.download_cover_image respL respM pre (some cid) isbn = ("", false))
    ∧ (∀ (col : List RC1.Book) (raw : String) (raw' : RC1.ApiBook)
        (today : String) (env : RC1.Env),
      pyStrip raw ≠ "" →
      ¬ col.any (fun b => b.ISBN == RC1.clean_isbn (pyStrip raw)) = true →
      env.imgResp = Except.error () →
      RC1.fetch_and_add_book col raw (RC1.ApiResp.ok (some raw')) true today env
        = ⟨RC1._sort_collection (col ++
            [{ ISBN := RC1.clean_isbn (pyStrip raw)
               Title := raw'.title.getD "N/A"
               Author := RC1.joinNames raw'.authors
               Publisher := RC1.joinNames raw'.publishers
               PublishedDate := raw'.publish_date.getD "N/A"
               ImagePath := none
               ReadStatus := "No"
               DateAdded := today }]),
            RC1.Outcome.added env.saveWriteOk, true⟩) := by
  refine ⟨?_, ?_, ?_⟩
  · intro img pre cid isbn h0 h1 hok
    have hc1 : ¬ (truthyInt (some cid) = false ∨ some cid = some (-1)) := by
      rintro (hc | hc)
      · simp [truthyInt] at hc
        exact h0 hc
      · exact h1 (Option.some.injEq cid (-1) ▸ hc)
    unfold PB.download_cover_image
    rw [if_neg hc1, if_pos hok]
  · intro respL respM pre cid isbn h0 h1 hok
    have hc1 : ¬ (truthyInt (some cid) = false ∨ some cid = some (-1)) := by
      rintro (hc | hc)
      · simp [truthyInt] at hc
        exact h0 hc
      · exact h1 (Option.some.injEq cid (-1) ▸ hc)
    unfold Demo.download_cover_image
    rw [if_neg hc1, if_pos hok]
  · intro col raw raw' today env h1 h2 himg
    rw [rc1_add_success_eq col raw raw' today env h1 h2,
      coverDownload_none_of_error env _ _ himg]

theorem cover_request_failure_degrades_witness :
    PB.download_cover_image ⟨false, "", true⟩ true (some 5) "1" = ("", false)
    ∧ Demo.download_cover_image ⟨false, "", true⟩ ⟨true, "image/jpeg", true⟩
        true (some 5) "1" = ("", false)
    ∧ RC1.fetch_and_add_book [] "12" (RC1.ApiResp.ok (some coveredApiBook))
        true "2024-01-01" errorImgEnv
      = ⟨RC1._sort_collection ([] ++
          [{ ISBN := RC1.clean_isbn (pyStrip "12")
             Title := coveredApiBook.title.getD "N/A"
             Author := RC1.joinNames coveredApiBook.authors
             Publisher := RC1.joinNames coveredApiBook.publishers
             PublishedDate := coveredApiBook.publish_date.getD "N/A"
             ImagePath := none
             ReadStatus := "No"
             DateAdded := "2024-01-01" }]),
          RC1.Outcome.added true, true⟩ :=
  ⟨cover_request_failure_degrades.1 ⟨false, "", true⟩ true 5 "1"
      (by decide) (by decide) (by decide),
    cover_request_failure_degrades.2.1 ⟨false, "", true⟩ ⟨true, "image/jpeg", true⟩
      true 5 "1" (by decide) (by decide) (by decide),
    cover_request_failure_degrades.2.2 [] "12" coveredApiBook "2024-01-01"
      errorImgEnv (by decide) (by decide) rfl⟩

/-- Claim C10.  The metadata lookup keeps only the first two authors and the
first two publishers: any later entries of the service response leave the
`Author` and `Publisher` display strings unchanged, which are the joins of
the (at most two) retained names — in `PyBrary.py` and in the demo script
alike. -/
theorem metadata_joins_first_two (resolve : String → String) (isbn : String)
    (bd : PB.OLBookData) (a1 a2 : PB.OLAuthorRef) (arest : List PB.OLAuthorRef)
    (p1 p2 : String) (prest : List String)
    (d1 d2 : Demo.AuthorRef) (drest : List Demo.AuthorRef) :
    (PB.fetch_book_details_openlibrary resolve isbn
        { bd with authors := a1 :: a2 :: arest }).Author
      = (PB.fetch_book_details_openlibrary resolve isbn
          { bd with authors := [a1, a2] }).Author
    ∧ (PB.fetch_book_details_openlibrary resolve isbn
        { bd with publishers := p1 :: p2 :: prest }).Publisher
      = (PB.fetch_book_details_openlibrary resolve isbn
          { bd with publishers := [p1, p2] }).Publisher
    ∧ (PB.fetch_book_details_openlibrary resolve isbn bd).Author
      = (if bd.authors.isEmpty then "N/A"
         else pyJoin ", " ((bd.authors.take 2).map (PB.authorName resolve)))
    ∧ (PB.fetch_book_details_openlibrary resolve isbn bd).Publisher
      = (if bd.publishers.isEmpty then "N/A"
         else pyJoin ", " (bd.publishers.take 2))
    ∧ Demo.authorsField resolve (d1 :: d2 :: drest)
      = Demo.authorsField resolve [d1, d2]
    ∧ Demo.publisherField (p1 :: p2 :: prest) = Demo.publisherField [p1, p2] :=
  ⟨rfl, rfl, rfl, rfl, rfl, rfl⟩

theorem collection_sorted_witness :
    (RC1.fetch_and_add_book [duneBook] "9780743273565"
        (RC1.ApiResp.ok (some gatsbyApiBook)) true "2024-01-01" quietEnv).outcome
      = RC1.Outcome.added true
    ∧ List.Chain'
        (fun a b : RC1.Book => (pyLower a.Title).data ≤ (pyLower b.Title).data)
        (RC1.fetch_and_add_book [duneBook] "9780743273565"
          (RC1.ApiResp.ok (some gatsbyApiBook)) true "2024-01-01" quietEnv).collection :=
  ⟨by decide,
    collection_sorted_after_load_and_insert.2.2 [duneBook] "9780743273565"
      (RC1.ApiResp.ok (some gatsbyApiBook)) true "2024-01-01" quietEnv true
      (by decide)⟩
